import Mathlib

/-!
Verification of the `RSSpythemes.fonts` module (`src/RSSpythemes/fonts/__init__.py`).

The module is glue over matplotlib's font manager: it lists the bundled
Source Sans Pro `.ttf` files, registers them with the external font manager,
queries whether the family is known, and exposes a fixed weight-to-filename
mapping.  We embed the module shallowly: the filesystem state of the bundled
font directory and the external font manager become explicit values threaded
through the functions, Python exceptions become an `Except` result, and
printed diagnostics become an explicit output list.
-/

namespace RSSpythemes

/-- State of the bundled `source_sans_pro` font directory on disk: whether
the directory exists, and the names of the files it contains, in the
(arbitrary) order `Path.glob` enumerates them. -/
structure FontDir where
  dirExists : Bool
  files : List String
deriving Repr, DecidableEq

/-- Whether a file name matches the glob pattern `*.ttf`, i.e. ends with
the characters `.ttf`. -/
def isTtf (f : String) : Bool :=
  ".ttf".data.isSuffixOf f.data

/-- `Path.glob("*.ttf")`: the files of the directory whose name ends in
`.ttf`, in directory order. -/
def globTtf (d : FontDir) : List String :=
  d.files.filter isTtf

/-- Outcome of the external `fm._rebuild()` call: the attribute may be
absent (raising `AttributeError`, which the code catches), the call may
succeed, or the call may raise some other exception (which the code does
not catch). -/
inductive RebuildOutcome where
  | absent
  | ok
  | raises
deriving Repr, DecidableEq

/-- Model of `matplotlib.font_manager` as seen through the calls the module
makes: whether the import succeeded (`MATPLOTLIB_AVAILABLE`), the behaviour
of `fontManager.addfont` on each path (`none` = the call raises, `some fam`
= it succeeds and records a font entry with family name `fam`), the
behaviour of `fm._rebuild`, and the family names of the entries currently
in `fontManager.ttflist`. -/
structure FontManager where
  available : Bool
  addfont : String → Option String
  rebuild : RebuildOutcome
  ttflist : List String

/-- The Python exceptions `register_source_sans_fonts` can propagate. -/
inductive RegisterError where
  | importError
  | rebuildError
deriving Repr, DecidableEq

/-- Result of a call to `register_source_sans_fonts`: the returned value or
propagated exception, the font manager state after the call, the lines
printed, and (ghost) the list of paths passed to `addfont` and whether
control reached the `fm._rebuild()` call. -/
structure RegisterResult where
  result : Except RegisterError Bool
  mgr : FontManager
  output : List String
  attempts : List String
  rebuildAttempted : Bool

/-- Accumulated state of the `for font_file in font_files` loop. -/
structure LoopResult where
  mgr : FontManager
  count : Nat
  output : List String
  attempts : List String

/-- The per-file loop of `register_source_sans_fonts`: each file is passed
to `addfont`; success appends the file's family to `ttflist` and increments
`registered_count`; failure is caught and, when verbose, reported. -/
def registerLoop (verbose : Bool) : FontManager → List String → LoopResult
  | mgr, [] => ⟨mgr, 0, [], []⟩
  | mgr, f :: fs =>
    match mgr.addfont f with
    | some fam =>
      let rest := registerLoop verbose { mgr with ttflist := mgr.ttflist ++ [fam] } fs
      ⟨rest.mgr, rest.count + 1,
        (if verbose then ["Registered: " ++ f] else []) ++ rest.output,
        f :: rest.attempts⟩
    | none =>
      let rest := registerLoop verbose mgr fs
      ⟨rest.mgr, rest.count,
        (if verbose then ["Failed to register " ++ f] else []) ++ rest.output,
        f :: rest.attempts⟩

/-- `register_source_sans_fonts(verbose)` (lines 64-136 of the source):
raises `ImportError` when matplotlib is unavailable; returns `False` when
the font directory is missing or holds no `.ttf` files; otherwise attempts
every file, rebuilds the font cache when at least one registered (catching
only `AttributeError`), and returns `registered_count > 0`. -/
def register_source_sans_fonts (d : FontDir) (mgr : FontManager)
    (verbose : Bool) : RegisterResult :=
  if mgr.available = false then
    ⟨.error .importError, mgr, [], [], false⟩
  else if d.dirExists = false then
    ⟨.ok false, mgr,
      if verbose then ["Font directory not found: source_sans_pro"] else [],
      [], false⟩
  else
    let font_files := globTtf d
    if font_files.isEmpty then
      ⟨.ok false, mgr,
        if verbose then ["No font files found in: source_sans_pro"] else [],
        [], false⟩
    else
      let loop := registerLoop verbose mgr font_files
      if 0 < loop.count then
        match loop.mgr.rebuild with
        | .raises =>
          ⟨.error .rebuildError, loop.mgr, loop.output, loop.attempts, true⟩
        | _ =>
          ⟨.ok true, loop.mgr,
            loop.output ++
              (if verbose then
                ["Successfully registered " ++ toString loop.count ++ " font(s)"]
               else []),
            loop.attempts, true⟩
      else
        ⟨.ok false, loop.mgr, loop.output, loop.attempts, false⟩

/-- Python's string comparison, used by `sorted`: lexicographic on the
sequences of code points. -/
def sortLe (a b : String) : Prop :=
  a.data ≤ b.data

instance : DecidableRel sortLe :=
  fun a b => inferInstanceAs (Decidable (a.data ≤ b.data))

instance : IsTotal String sortLe :=
  ⟨fun a b => le_total a.data b.data⟩

instance : IsTrans String sortLe :=
  ⟨fun _ _ _ => le_trans⟩

/-- `list_available_fonts()` (lines 41-61): empty when the directory is
absent, otherwise the `.ttf` file names sorted ascending (`sorted`). -/
def list_available_fonts (d : FontDir) : List String :=
  if d.dirExists = false then []
  else List.insertionSort sortLe (globTtf d)

/-- `is_source_sans_available()` (lines 139-161): `False` when matplotlib
is unavailable, otherwise whether "Source Sans Pro" is among the family
names of `fontManager.ttflist`. -/
def is_source_sans_available (mgr : FontManager) : Bool :=
  if mgr.available = false then false
  else decide ("Source Sans Pro" ∈ mgr.ttflist)

/-- `get_source_sans_weights()` (lines 164-186): the fixed four-entry
weight-to-filename mapping, in the source's insertion order. -/
def get_source_sans_weights : List (String × String) :=
  [("regular", "SourceSansPro-Regular.ttf"),
   ("italic", "SourceSansPro-Italic.ttf"),
   ("bold", "SourceSansPro-Bold.ttf"),
   ("bold_italic", "SourceSansPro-BoldItalic.ttf")]

/-- Modelled from the spec: the contents of the bundled `source_sans_pro`
asset directory, which is repository data not present under `src/`.
Spec section 6 (Filesystem layout): "a fixed directory containing typeface
files named SourceSansPro-Regular.ttf, SourceSansPro-Italic.ttf,
SourceSansPro-Bold.ttf, SourceSansPro-BoldItalic.ttf". -/
def bundledFontDir : FontDir :=
  ⟨true, ["SourceSansPro-Regular.ttf", "SourceSansPro-Italic.ttf",
          "SourceSansPro-Bold.ttf", "SourceSansPro-BoldItalic.ttf"]⟩

/-- Number of files of `fs` on which `addfont` succeeds; the loop's final
`registered_count` (the addfont behaviour does not change during the loop,
so this is a pure count). -/
def successCount (mgr : FontManager) (fs : List String) : Nat :=
  fs.countP (fun f => (mgr.addfont f).isSome)

theorem registerLoop_count (verbose : Bool) (mgr : FontManager) (fs : List String) :
    (registerLoop verbose mgr fs).count = successCount mgr fs := by
  induction fs generalizing mgr with
  | nil => rfl
  | cons f fs ih =>
    cases h : mgr.addfont f with
    | some fam =>
      simp [registerLoop, h, ih, successCount, List.countP_cons]
    | none =>
      simp [registerLoop, h, ih, successCount, List.countP_cons]

theorem registerLoop_attempts (verbose : Bool) (mgr : FontManager) (fs : List String) :
    (registerLoop verbose mgr fs).attempts = fs := by
  induction fs generalizing mgr with
  | nil => rfl
  | cons f fs ih =>
    cases h : mgr.addfont f with
    | some fam => simp [registerLoop, h, ih]
    | none => simp [registerLoop, h, ih]

theorem registerLoop_mgr (verbose : Bool) (mgr : FontManager) (fs : List String) :
    (registerLoop verbose mgr fs).mgr =
      { mgr with ttflist := mgr.ttflist ++ fs.filterMap mgr.addfont } := by
  induction fs generalizing mgr with
  | nil => simp [registerLoop]
  | cons f fs ih =>
    cases h : mgr.addfont f with
    | some fam => simp [registerLoop, h, ih, List.filterMap_cons]
    | none => simp [registerLoop, h, ih, List.filterMap_cons]

theorem registerLoop_mgr_available (verbose : Bool) (mgr : FontManager) (fs : List String) :
    (registerLoop verbose mgr fs).mgr.available = mgr.available := by
  rw [registerLoop_mgr]

theorem registerLoop_mgr_rebuild (verbose : Bool) (mgr : FontManager) (fs : List String) :
    (registerLoop verbose mgr fs).mgr.rebuild = mgr.rebuild := by
  rw [registerLoop_mgr]

theorem registerLoop_mgr_ttflist (verbose : Bool) (mgr : FontManager) (fs : List String) :
    (registerLoop verbose mgr fs).mgr.ttflist = mgr.ttflist ++ fs.filterMap mgr.addfont := by
  rw [registerLoop_mgr]

theorem register_unavailable (d : FontDir) (mgr : FontManager) (verbose : Bool)
    (h : mgr.available = false) :
    register_source_sans_fonts d mgr verbose = ⟨.error .importError, mgr, [], [], false⟩ := by
  simp [register_source_sans_fonts, h]

theorem register_noDir (d : FontDir) (mgr : FontManager) (verbose : Bool)
    (hav : mgr.available = true) (hd : d.dirExists = false) :
    register_source_sans_fonts d mgr verbose =
      ⟨.ok false, mgr,
        if verbose then ["Font directory not found: source_sans_pro"] else [],
        [], false⟩ := by
  simp [register_source_sans_fonts, hav, hd]

theorem register_noTtf (d : FontDir) (mgr : FontManager) (verbose : Bool)
    (hav : mgr.available = true) (hd : d.dirExists = true) (hfs : globTtf d = []) :
    register_source_sans_fonts d mgr verbose =
      ⟨.ok false, mgr,
        if verbose then ["No font files found in: source_sans_pro"] else [],
        [], false⟩ := by
  simp [register_source_sans_fonts, hav, hd, hfs]

theorem register_run_zero (d : FontDir) (mgr : FontManager) (verbose : Bool)
    (hav : mgr.available = true) (hd : d.dirExists = true)
    (h0 : successCount mgr (globTtf d) = 0) :
    register_source_sans_fonts d mgr verbose =
      (if (globTtf d).isEmpty then
        ⟨.ok false, mgr,
          if verbose then ["No font files found in: source_sans_pro"] else [],
          [], false⟩
       else
        ⟨.ok false, (registerLoop verbose mgr (globTtf d)).mgr,
          (registerLoop verbose mgr (globTtf d)).output,
          (registerLoop verbose mgr (globTtf d)).attempts, false⟩) := by
  by_cases hfs : (globTtf d).isEmpty
  · simp [register_source_sans_fonts, hav, hd, hfs]
  · simp [register_source_sans_fonts, hav, hd, hfs, registerLoop_count, h0]

theorem register_run_pos_noraise (d : FontDir) (mgr : FontManager) (verbose : Bool)
    (hav : mgr.available = true) (hd : d.dirExists = true)
    (hc : 0 < successCount mgr (globTtf d)) (hr : mgr.rebuild ≠ .raises) :
    register_source_sans_fonts d mgr verbose =
      ⟨.ok true, (registerLoop verbose mgr (globTtf d)).mgr,
        (registerLoop verbose mgr (globTtf d)).output ++
          (if verbose then
            ["Successfully registered " ++
              toString (registerLoop verbose mgr (globTtf d)).count ++ " font(s)"]
           else []),
        (registerLoop verbose mgr (globTtf d)).attempts, true⟩ := by
  have hne : (globTtf d).isEmpty = false := by
    cases hfs : globTtf d with
    | nil => rw [hfs] at hc; simp [successCount] at hc
    | cons f fs => simp
  simp only [register_source_sans_fonts, hav, hd, hne, Bool.true_eq_false,
    if_neg, Bool.false_eq_true, ite_false, reduceIte]
  rw [registerLoop_count]
  simp only [hc, if_pos, registerLoop_mgr_rebuild]

theorem register_run_pos_raises (d : FontDir) (mgr : FontManager) (verbose : Bool)
    (hav : mgr.available = true) (hd : d.dirExists = true)
    (hc : 0 < successCount mgr (globTtf d)) (hr : mgr.rebuild = .raises) :
    register_source_sans_fonts d mgr verbose =
      ⟨.error .rebuildError, (registerLoop verbose mgr (globTtf d)).mgr,
        (registerLoop verbose mgr (globTtf d)).output,
        (registerLoop verbose mgr (globTtf d)).attempts, true⟩ := by
  have hne : (globTtf d).isEmpty = false := by
    cases hfs : globTtf d with
    | nil => rw [hfs] at hc; simp [successCount] at hc
    | cons f fs => simp
  simp only [register_source_sans_fonts, hav, hd, hne, Bool.true_eq_false,
    Bool.false_eq_true, reduceIte]
  rw [registerLoop_count]
  simp only [hc, if_pos, registerLoop_mgr_rebuild, hr]

/-- Case analysis on a call to `register_source_sans_fonts`: exactly one of
the five regimes applies (matplotlib unavailable; directory missing or no
`.ttf` files; all registrations failed; some registration succeeded and the
cache rebuild did not raise; some registration succeeded and the cache
rebuild raised). -/
theorem register_shape (d : FontDir) (mgr : FontManager) (verbose : Bool) :
    (mgr.available = false ∧
      register_source_sans_fonts d mgr verbose = ⟨.error .importError, mgr, [], [], false⟩)
    ∨ (mgr.available = true ∧ (d.dirExists = false ∨ globTtf d = []) ∧
        ∃ out, register_source_sans_fonts d mgr verbose = ⟨.ok false, mgr, out, [], false⟩)
    ∨ (mgr.available = true ∧ d.dirExists = true ∧ (globTtf d).isEmpty = false ∧
        successCount mgr (globTtf d) = 0 ∧
        register_source_sans_fonts d mgr verbose =
          ⟨.ok false, (registerLoop verbose mgr (globTtf d)).mgr,
            (registerLoop verbose mgr (globTtf d)).output,
            (registerLoop verbose mgr (globTtf d)).attempts, false⟩)
    ∨ (mgr.available = true ∧ d.dirExists = true ∧ 0 < successCount mgr (globTtf d) ∧
        mgr.rebuild ≠ .raises ∧
        register_source_sans_fonts d mgr verbose =
          ⟨.ok true, (registerLoop verbose mgr (globTtf d)).mgr,
            (registerLoop verbose mgr (globTtf d)).output ++
              (if verbose then
                ["Successfully registered " ++
                  toString (registerLoop verbose mgr (globTtf d)).count ++ " font(s)"]
               else []),
            (registerLoop verbose mgr (globTtf d)).attempts, true⟩)
    ∨ (mgr.available = true ∧ d.dirExists = true ∧ 0 < successCount mgr (globTtf d) ∧
        mgr.rebuild = .raises ∧
        register_source_sans_fonts d mgr verbose =
          ⟨.error .rebuildError, (registerLoop verbose mgr (globTtf d)).mgr,
            (registerLoop verbose mgr (globTtf d)).output,
            (registerLoop verbose mgr (globTtf d)).attempts, true⟩) := by
  by_cases hav : mgr.available = true
  · by_cases hd : d.dirExists = true
    · by_cases hfs : globTtf d = []
      · exact Or.inr (Or.inl ⟨hav, Or.inr hfs,
          ⟨if verbose then ["No font files found in: source_sans_pro"] else [],
            register_noTtf d mgr verbose hav hd hfs⟩⟩)
      · have hne : (globTtf d).isEmpty = false := by
          cases hg : globTtf d
          · exact absurd hg hfs
          · simp
        by_cases h0 : 0 < successCount mgr (globTtf d)
        · cases hr : mgr.rebuild with
          | raises =>
            exact Or.inr (Or.inr (Or.inr (Or.inr ⟨hav, hd, h0, rfl,
              register_run_pos_raises d mgr verbose hav hd h0 hr⟩)))
          | absent =>
            exact Or.inr (Or.inr (Or.inr (Or.inl ⟨hav, hd, h0, by simp [hr],
              register_run_pos_noraise d mgr verbose hav hd h0 (by simp [hr])⟩)))
          | ok =>
            exact Or.inr (Or.inr (Or.inr (Or.inl ⟨hav, hd, h0, by simp [hr],
              register_run_pos_noraise d mgr verbose hav hd h0 (by simp [hr])⟩)))
        · have h0' : successCount mgr (globTtf d) = 0 := Nat.eq_zero_of_not_pos h0
          refine Or.inr (Or.inr (Or.inl ⟨hav, hd, hne, h0', ?_⟩))
          rw [register_run_zero d mgr verbose hav hd h0']
          simp [hne]
    · have hd' : d.dirExists = false := by
        cases hde : d.dirExists
        · rfl
        · exact absurd hde hd
      exact Or.inr (Or.inl ⟨hav, Or.inl hd',
        ⟨if verbose then ["Font directory not found: source_sans_pro"] else [],
          register_noDir d mgr verbose hav hd'⟩⟩)
  · have hav' : mgr.available = false := by
      cases hae : mgr.available
      · rfl
      · exact absurd hae hav
    exact Or.inl ⟨hav', register_unavailable d mgr verbose hav'⟩

/-- Claim C1: for every state of the font directory and external font
manager, `register_source_sans_fonts` returns `True` iff at least one font
file was successfully registered during the call: whenever it returns a
boolean `b`, `b = true` iff the directory existed and the registration of
some enumerated `.ttf` file succeeded; and it returns `False` when the
directory does not exist, when it contains no `.ttf` file, and when every
individual registration attempt failed. -/
theorem register_true_iff_registered (d : FontDir) (mgr : FontManager) (verbose : Bool) :
    (∀ b : Bool, (register_source_sans_fonts d mgr verbose).result = .ok b →
        (b = true ↔ d.dirExists = true ∧ 0 < successCount mgr (globTtf d)))
    ∧ (mgr.available = true → d.dirExists = false →
        (register_source_sans_fonts d mgr verbose).result = .ok false)
    ∧ (mgr.available = true → globTtf d = [] →
        (register_source_sans_fonts d mgr verbose).result = .ok false)
    ∧ (mgr.available = true → successCount mgr (globTtf d) = 0 →
        (register_source_sans_fonts d mgr verbose).result = .ok false)
    ∧ (mgr.available = true → d.dirExists = true → mgr.rebuild ≠ .raises →
        0 < successCount mgr (globTtf d) →
        (register_source_sans_fonts d mgr verbose).result = .ok true) := by
  refine ⟨?_, ?_, ?_, ?_, ?_⟩
  · intro b hb
    by_cases hav : mgr.available = true
    · by_cases hd : d.dirExists = true
      · by_cases h0 : 0 < successCount mgr (globTtf d)
        · cases hr : mgr.rebuild with
          | raises =>
            rw [register_run_pos_raises d mgr verbose hav hd h0 hr] at hb
            simp at hb
          | absent =>
            rw [register_run_pos_noraise d mgr verbose hav hd h0 (by simp [hr])] at hb
            simp only [Except.ok.injEq] at hb
            simp [← hb, hd, h0]
          | ok =>
            rw [register_run_pos_noraise d mgr verbose hav hd h0 (by simp [hr])] at hb
            simp only [Except.ok.injEq] at hb
            simp [← hb, hd, h0]
        · have h0' : successCount mgr (globTtf d) = 0 := Nat.eq_zero_of_not_pos h0
          rw [register_run_zero d mgr verbose hav hd h0'] at hb
          by_cases hfs : (globTtf d).isEmpty <;>
            simp only [hfs, if_pos, if_neg, ite_true, ite_false, Except.ok.injEq,
              Bool.false_eq_true, reduceIte] at hb <;>
            simp [← hb, h0]
      · have hd' : d.dirExists = false := by
          cases hde : d.dirExists
          · rfl
          · exact absurd hde hd
        rw [register_noDir d mgr verbose hav hd'] at hb
        simp only [Except.ok.injEq] at hb
        simp [← hb, hd']
    · have hav' : mgr.available = false := by
        cases hae : mgr.available
        · rfl
        · exact absurd hae hav
      rw [register_unavailable d mgr verbose hav'] at hb
      simp at hb
  · intro hav hd
    rw [register_noDir d mgr verbose hav hd]
  · intro hav hfs
    by_cases hd : d.dirExists = true
    · rw [register_noTtf d mgr verbose hav hd hfs]
    · have hd' : d.dirExists = false := by
        cases hde : d.dirExists
        · rfl
        · exact absurd hde hd
      rw [register_noDir d mgr verbose hav hd']
  · intro hav h0
    by_cases hd : d.dirExists = true
    · rw [register_run_zero d mgr verbose hav hd h0]
      by_cases hfs : (globTtf d).isEmpty <;> simp [hfs]
    · have hd' : d.dirExists = false := by
        cases hde : d.dirExists
        · rfl
        · exact absurd hde hd
      rw [register_noDir d mgr verbose hav hd']
  · intro hav hd hr hc
    rw [register_run_pos_noraise d mgr verbose hav hd hc hr]

/-- Witness for C1 (last conjunct): a directory with one `.ttf` file and a
manager on which every `addfont` succeeds yields `True`. -/
theorem register_true_iff_registered_witness :
    (register_source_sans_fonts ⟨true, ["SourceSansPro-Regular.ttf"]⟩
      ⟨true, fun _ => some "Source Sans Pro", .ok, []⟩ false).result = .ok true :=
  (register_true_iff_registered ⟨true, ["SourceSansPro-Regular.ttf"]⟩
      ⟨true, fun _ => some "Source Sans Pro", .ok, []⟩ false).2.2.2.2
    rfl rfl (by simp) (by decide)

/-- Counterexample to claim C2 as stated: the ImportError is not the
operation's only hard failure.  With matplotlib available, one registering
file, and an `fm._rebuild` that raises an exception other than
`AttributeError`, the `try` at source lines 127-131 (which catches only
`AttributeError`) lets that exception propagate: a hard failure with the
capability fully available. -/
theorem register_importError_only_failure_cex :
    ((register_source_sans_fonts ⟨true, ["SourceSansPro-Regular.ttf"]⟩
        ⟨true, fun _ => some "Source Sans Pro", .raises, []⟩ false).result
      = .error .rebuildError)
    ∧ (⟨true, fun _ => some "Source Sans Pro", .raises, []⟩ : FontManager).available = true :=
  ⟨rfl, rfl⟩

/-- Claim C2 (amended): `register_source_sans_fonts` raises `ImportError`
iff the matplotlib font-manager capability is unavailable, and in that case
it raises immediately: the font manager is untouched, nothing is printed,
no file is passed to `addfont`, and the outcome does not depend on the
filesystem state.  It is however not the only hard failure: a propagated
error is either this ImportError (capability unavailable) or an exception
raised by the font-cache rebuild, which the code does not catch unless it
is an `AttributeError`. -/
theorem register_importError_iff_unavailable (d : FontDir) (mgr : FontManager)
    (verbose : Bool) :
    ((register_source_sans_fonts d mgr verbose).result = .error .importError ↔
      mgr.available = false)
    ∧ (mgr.available = false →
        register_source_sans_fonts d mgr verbose = ⟨.error .importError, mgr, [], [], false⟩
        ∧ ∀ d2 : FontDir,
            register_source_sans_fonts d mgr verbose = register_source_sans_fonts d2 mgr verbose)
    ∧ (∀ e : RegisterError, (register_source_sans_fonts d mgr verbose).result = .error e →
        (e = .importError ∧ mgr.available = false) ∨
        (e = .rebuildError ∧ mgr.available = true ∧ mgr.rebuild = .raises)) := by
  refine ⟨⟨?_, ?_⟩, ?_, ?_⟩
  · intro h
    rcases register_shape d mgr verbose with
      ⟨hav, heq⟩ | ⟨hav, hcond, out, heq⟩ | ⟨hav, hd, hne, h0, heq⟩ |
      ⟨hav, hd, h0, hr, heq⟩ | ⟨hav, hd, h0, hr, heq⟩
    · exact hav
    all_goals rw [heq] at h
    all_goals simp at h
  · intro h
    rw [register_unavailable d mgr verbose h]
  · intro h
    refine ⟨register_unavailable d mgr verbose h, fun d2 => ?_⟩
    rw [register_unavailable d mgr verbose h, register_unavailable d2 mgr verbose h]
  · intro e he
    rcases register_shape d mgr verbose with
      ⟨hav, heq⟩ | ⟨hav, hcond, out, heq⟩ | ⟨hav, hd, hne, h0, heq⟩ |
      ⟨hav, hd, h0, hr, heq⟩ | ⟨hav, hd, h0, hr, heq⟩
    all_goals rw [heq] at he
    all_goals simp at he
    · exact Or.inl ⟨he.symm, hav⟩
    · exact Or.inr ⟨he.symm, hav, hr⟩

/-- Witness for C2 (amended): with matplotlib unavailable the call fails
with ImportError and leaves everything untouched. -/
theorem register_importError_iff_unavailable_witness :
    register_source_sans_fonts ⟨true, ["SourceSansPro-Regular.ttf"]⟩
        ⟨false, fun _ => none, .ok, []⟩ false
      = ⟨.error .importError, ⟨false, fun _ => none, .ok, []⟩, [], [], false⟩ :=
  ((register_importError_iff_unavailable ⟨true, ["SourceSansPro-Regular.ttf"]⟩
      ⟨false, fun _ => none, .ok, []⟩ false).2.1 rfl).1

/-- Claim C3: a failure to register one file is caught locally and does not
abort the batch: whenever the loop runs (matplotlib available, directory
present), every enumerated `.ttf` file is passed to `addfont` regardless of
which registrations fail, and if any file registers successfully (and the
best-effort cache rebuild does not itself raise) the call still returns
`True`. -/
theorem register_per_file_failure_tolerant (d : FontDir) (mgr : FontManager)
    (verbose : Bool) (hav : mgr.available = true) (hd : d.dirExists = true) :
    (register_source_sans_fonts d mgr verbose).attempts = globTtf d
    ∧ (mgr.rebuild ≠ .raises → 0 < successCount mgr (globTtf d) →
        (register_source_sans_fonts d mgr verbose).result = .ok true) := by
  constructor
  · rcases register_shape d mgr verbose with
      ⟨hav', heq⟩ | ⟨_, hcond, out, heq⟩ | ⟨_, _, _, _, heq⟩ |
      ⟨_, _, _, _, heq⟩ | ⟨_, _, _, _, heq⟩
    · rw [hav] at hav'; simp at hav'
    · rcases hcond with hd' | hfs
      · rw [hd] at hd'; simp at hd'
      · rw [heq, hfs]
    all_goals rw [heq]
    all_goals simp [registerLoop_attempts]
  · intro hr hc
    rw [register_run_pos_noraise d mgr verbose hav hd hc hr]

/-- Witness for C3: one bad file does not block the other: both files are
attempted and the call returns `True` although `Bad.ttf` failed. -/
theorem register_per_file_failure_tolerant_witness :
    (register_source_sans_fonts ⟨true, ["Bad.ttf", "Good.ttf"]⟩
        ⟨true, fun f => if f = "Good.ttf" then some "Source Sans Pro" else none, .absent, []⟩
        false).attempts = ["Bad.ttf", "Good.ttf"]
    ∧ (register_source_sans_fonts ⟨true, ["Bad.ttf", "Good.ttf"]⟩
        ⟨true, fun f => if f = "Good.ttf" then some "Source Sans Pro" else none, .absent, []⟩
        false).result = .ok true := by
  constructor
  · exact (register_per_file_failure_tolerant ⟨true, ["Bad.ttf", "Good.ttf"]⟩
      ⟨true, fun f => if f = "Good.ttf" then some "Source Sans Pro" else none, .absent, []⟩
      false rfl rfl).1.trans (by decide)
  · exact (register_per_file_failure_tolerant ⟨true, ["Bad.ttf", "Good.ttf"]⟩
      ⟨true, fun f => if f = "Good.ttf" then some "Source Sans Pro" else none, .absent, []⟩
      false rfl rfl).2 (by decide) (by decide)

/-- Claim C4: `list_available_fonts` returns the empty sequence when the
directory is absent, its result is always lexicographically sorted, on an
existing directory it is a permutation of exactly the `.ttf` filenames
present, and on a directory holding exactly `SourceSansPro-Regular.ttf` and
`SourceSansPro-Bold.ttf` it returns
`["SourceSansPro-Bold.ttf", "SourceSansPro-Regular.ttf"]`. -/
theorem list_available_fonts_correct (d : FontDir) :
    (d.dirExists = false → list_available_fonts d = [])
    ∧ List.Sorted sortLe (list_available_fonts d)
    ∧ (d.dirExists = true → (list_available_fonts d).Perm (globTtf d))
    ∧ list_available_fonts ⟨true, ["SourceSansPro-Regular.ttf", "SourceSansPro-Bold.ttf"]⟩
        = ["SourceSansPro-Bold.ttf", "SourceSansPro-Regular.ttf"] := by
  refine ⟨?_, ?_, ?_, by decide⟩
  · intro h
    simp [list_available_fonts, h]
  · by_cases h : d.dirExists = true
    · simp only [list_available_fonts, h, Bool.true_eq_false, reduceIte]
      exact List.sorted_insertionSort sortLe (globTtf d)
    · have h' : d.dirExists = false := by
        cases hh : d.dirExists
        · rfl
        · exact absurd hh h
      simp [list_available_fonts, h']
  · intro h
    simp only [list_available_fonts, h, Bool.true_eq_false, reduceIte]
    exact List.perm_insertionSort sortLe (globTtf d)

/-- Witness for C4 (permutation conjunct) at a mixed directory. -/
theorem list_available_fonts_correct_witness :
    (list_available_fonts ⟨true, ["b.ttf", "a.ttf", "readme.md"]⟩).Perm
      (globTtf ⟨true, ["b.ttf", "a.ttf", "readme.md"]⟩) :=
  (list_available_fonts_correct ⟨true, ["b.ttf", "a.ttf", "readme.md"]⟩).2.2.1 rfl

/-- Claim C5: every filename appearing as a value of the weight mapping
returned by `get_source_sans_weights` is an element of the listing of the
bundled asset directory returned by `list_available_fonts`
(asset-integrity invariant). -/
theorem weights_reference_existing_files :
    get_source_sans_weights.all
      (fun p => decide (p.2 ∈ list_available_fonts bundledFontDir)) = true := by
  decide

/-- Claim C6: `get_source_sans_weights` is a constant of the embedding (no
I/O, no failure) and always returns the same fixed four-entry mapping,
with keys regular, italic, bold, bold_italic mapped respectively to the
four Source Sans Pro filenames. -/
theorem get_source_sans_weights_fixed :
    get_source_sans_weights =
      [("regular", "SourceSansPro-Regular.ttf"),
       ("italic", "SourceSansPro-Italic.ttf"),
       ("bold", "SourceSansPro-Bold.ttf"),
       ("bold_italic", "SourceSansPro-BoldItalic.ttf")] := rfl

/-- Claim C7: with matplotlib available `is_source_sans_available` returns
`true` exactly when the family name "Source Sans Pro" is among the family
names currently known to the font manager; with no family recorded it
returns `false`; and after `register_source_sans_fonts` successfully
registers at least one file whose family is "Source Sans Pro", it returns
`true` on the resulting manager state. -/
theorem is_source_sans_available_spec (mgr : FontManager) (d : FontDir) (verbose : Bool) :
    (mgr.available = true →
      (is_source_sans_available mgr = true ↔ "Source Sans Pro" ∈ mgr.ttflist))
    ∧ (mgr.ttflist = [] → is_source_sans_available mgr = false)
    ∧ (mgr.available = true → d.dirExists = true →
        (∃ f ∈ globTtf d, mgr.addfont f = some "Source Sans Pro") →
        is_source_sans_available (register_source_sans_fonts d mgr verbose).mgr = true) := by
  refine ⟨?_, ?_, ?_⟩
  · intro hav
    simp [is_source_sans_available, hav]
  · intro h
    by_cases hav : mgr.available = false
    · simp [is_source_sans_available, hav]
    · simp [is_source_sans_available, hav, h]
  · intro hav hd hex
    obtain ⟨f, hf, hsome⟩ := hex
    have hc : 0 < successCount mgr (globTtf d) := by
      unfold successCount
      refine List.countP_pos_iff.mpr ⟨f, hf, ?_⟩
      simp [hsome]
    have hmgr : (register_source_sans_fonts d mgr verbose).mgr =
        (registerLoop verbose mgr (globTtf d)).mgr := by
      cases hr : mgr.rebuild with
      | raises => rw [register_run_pos_raises d mgr verbose hav hd hc hr]
      | absent => rw [register_run_pos_noraise d mgr verbose hav hd hc (by simp [hr])]
      | ok => rw [register_run_pos_noraise d mgr verbose hav hd hc (by simp [hr])]
    rw [hmgr, registerLoop_mgr]
    simp only [is_source_sans_available, hav, Bool.true_eq_false, reduceIte,
      decide_eq_true_eq, List.mem_append]
    exact Or.inr (List.mem_filterMap.mpr ⟨f, hf, hsome⟩)

/-- Witness for C7: registering a file whose family is "Source Sans Pro"
makes the availability check succeed. -/
theorem is_source_sans_available_spec_witness :
    is_source_sans_available
      (register_source_sans_fonts ⟨true, ["SourceSansPro-Regular.ttf"]⟩
        ⟨true, fun _ => some "Source Sans Pro", .absent, []⟩ false).mgr = true :=
  (is_source_sans_available_spec ⟨true, fun _ => some "Source Sans Pro", .absent, []⟩
      ⟨true, ["SourceSansPro-Regular.ttf"]⟩ false).2.2 rfl rfl
    ⟨"SourceSansPro-Regular.ttf", by decide, rfl⟩

/-- Counterexample to claim C8 as stated: a rebuild failure can change the
operation's outcome.  With one successfully registered file and an
`fm._rebuild` raising an exception other than `AttributeError`, the call
propagates the exception instead of returning `True`, while the identical
state with a succeeding rebuild returns `True`: the `except` at source
line 129 covers only `AttributeError`. -/
theorem register_rebuild_best_effort_cex :
    ((register_source_sans_fonts ⟨true, ["SourceSansPro-Bold.ttf"]⟩
        ⟨true, fun _ => some "Source Sans Pro", .raises, []⟩ false).result
      = .error .rebuildError)
    ∧ ((register_source_sans_fonts ⟨true, ["SourceSansPro-Bold.ttf"]⟩
        ⟨true, fun _ => some "Source Sans Pro", .ok, []⟩ false).result
      = .ok true) :=
  ⟨rfl, rfl⟩

/-- Claim C8 (amended): the font-cache rebuild is attempted exactly when
all enumerated files have been processed and at least one registration
succeeded; absence of the rebuild capability (`AttributeError`) is
tolerated silently, giving the same return value as a succeeding rebuild;
but a rebuild failure other than absence propagates as an exception instead
of returning. -/
theorem register_rebuild_spec (d : FontDir) (mgr : FontManager) (verbose : Bool) :
    ((register_source_sans_fonts d mgr verbose).rebuildAttempted = true ↔
      mgr.available = true ∧ d.dirExists = true ∧ 0 < successCount mgr (globTtf d))
    ∧ ((register_source_sans_fonts d mgr verbose).rebuildAttempted = true →
        (register_source_sans_fonts d mgr verbose).attempts = globTtf d)
    ∧ ((register_source_sans_fonts d { mgr with rebuild := .absent } verbose).result =
        (register_source_sans_fonts d { mgr with rebuild := .ok } verbose).result)
    ∧ (mgr.available = true → d.dirExists = true → 0 < successCount mgr (globTtf d) →
        mgr.rebuild = .raises →
        (register_source_sans_fonts d mgr verbose).result = .error .rebuildError) := by
  refine ⟨⟨?_, ?_⟩, ?_, ?_, ?_⟩
  · intro h
    rcases register_shape d mgr verbose with
      ⟨hav, heq⟩ | ⟨hav, hcond, out, heq⟩ | ⟨hav, hd, hne, h0, heq⟩ |
      ⟨hav, hd, h0, hr, heq⟩ | ⟨hav, hd, h0, hr, heq⟩
    all_goals rw [heq] at h
    · simp at h
    · simp at h
    · simp at h
    · exact ⟨hav, hd, h0⟩
    · exact ⟨hav, hd, h0⟩
  · rintro ⟨hav, hd, h0⟩
    cases hr : mgr.rebuild with
    | raises => rw [register_run_pos_raises d mgr verbose hav hd h0 hr]
    | absent => rw [register_run_pos_noraise d mgr verbose hav hd h0 (by simp [hr])]
    | ok => rw [register_run_pos_noraise d mgr verbose hav hd h0 (by simp [hr])]
  · intro h
    rcases register_shape d mgr verbose with
      ⟨hav, heq⟩ | ⟨hav, hcond, out, heq⟩ | ⟨hav, hd, hne, h0, heq⟩ |
      ⟨hav, hd, h0, hr, heq⟩ | ⟨hav, hd, h0, hr, heq⟩
    all_goals rw [heq] at h ⊢
    · simp at h
    · simp at h
    · simp at h
    all_goals rw [registerLoop_attempts]
  · by_cases hav : mgr.available = true
    · by_cases hd : d.dirExists = true
      · by_cases h0 : 0 < successCount mgr (globTtf d)
        · rw [register_run_pos_noraise d { mgr with rebuild := .absent } verbose hav hd h0
              (by simp),
            register_run_pos_noraise d { mgr with rebuild := .ok } verbose hav hd h0
              (by simp)]
        · have h0' : successCount mgr (globTtf d) = 0 := Nat.eq_zero_of_not_pos h0
          rw [register_run_zero d { mgr with rebuild := .absent } verbose hav hd h0',
            register_run_zero d { mgr with rebuild := .ok } verbose hav hd h0']
          by_cases hfs : (globTtf d).isEmpty <;> simp [hfs]
      · have hd' : d.dirExists = false := by
          cases hde : d.dirExists
          · rfl
          · exact absurd hde hd
        rw [register_noDir d { mgr with rebuild := .absent } verbose hav hd',
          register_noDir d { mgr with rebuild := .ok } verbose hav hd']
    · have hav' : mgr.available = false := by
        cases hae : mgr.available
        · rfl
        · exact absurd hae hav
      rw [register_unavailable d { mgr with rebuild := .absent } verbose hav',
        register_unavailable d { mgr with rebuild := .ok } verbose hav']
  · intro hav hd h0 hr
    rw [register_run_pos_raises d mgr verbose hav hd h0 hr]

/-- Witness for C8 (amended): on a registering run the rebuild is reached,
and with the capability absent the call still returns `True`. -/
theorem register_rebuild_spec_witness :
    ((register_source_sans_fonts ⟨true, ["SourceSansPro-Italic.ttf"]⟩
        ⟨true, fun _ => some "Source Sans Pro", .absent, []⟩ false).rebuildAttempted = true)
    ∧ ((register_source_sans_fonts ⟨true, ["SourceSansPro-Italic.ttf"]⟩
        ⟨true, fun _ => some "Source Sans Pro", .absent, []⟩ false).attempts
      = globTtf ⟨true, ["SourceSansPro-Italic.ttf"]⟩) :=
  ⟨(register_rebuild_spec ⟨true, ["SourceSansPro-Italic.ttf"]⟩
      ⟨true, fun _ => some "Source Sans Pro", .absent, []⟩ false).1.mpr
      ⟨rfl, rfl, by decide⟩,
   (register_rebuild_spec ⟨true, ["SourceSansPro-Italic.ttf"]⟩
      ⟨true, fun _ => some "Source Sans Pro", .absent, []⟩ false).2.1
      ((register_rebuild_spec ⟨true, ["SourceSansPro-Italic.ttf"]⟩
        ⟨true, fun _ => some "Source Sans Pro", .absent, []⟩ false).1.mpr
        ⟨rfl, rfl, by decide⟩)⟩

/-- Claim C9: the verbose flag influences only the printed diagnostics: the
returned value (or propagated exception), the final font-manager state, the
files passed to `addfont`, and whether the rebuild was attempted are
identical for verbose and quiet runs on the same state. -/
theorem register_verbose_independent (d : FontDir) (mgr : FontManager) :
    (register_source_sans_fonts d mgr true).result =
      (register_source_sans_fonts d mgr false).result
    ∧ (register_source_sans_fonts d mgr true).mgr =
        (register_source_sans_fonts d mgr false).mgr
    ∧ (register_source_sans_fonts d mgr true).attempts =
        (register_source_sans_fonts d mgr false).attempts
    ∧ (register_source_sans_fonts d mgr true).rebuildAttempted =
        (register_source_sans_fonts d mgr false).rebuildAttempted := by
  by_cases hav : mgr.available = true
  · by_cases hd : d.dirExists = true
    · by_cases h0 : 0 < successCount mgr (globTtf d)
      · cases hr : mgr.rebuild with
        | raises =>
          rw [register_run_pos_raises d mgr true hav hd h0 hr,
            register_run_pos_raises d mgr false hav hd h0 hr]
          exact ⟨rfl, by rw [registerLoop_mgr, registerLoop_mgr],
            by rw [registerLoop_attempts, registerLoop_attempts], rfl⟩
        | absent =>
          rw [register_run_pos_noraise d mgr true hav hd h0 (by simp [hr]),
            register_run_pos_noraise d mgr false hav hd h0 (by simp [hr])]
          exact ⟨rfl, by rw [registerLoop_mgr, registerLoop_mgr],
            by rw [registerLoop_attempts, registerLoop_attempts], rfl⟩
        | ok =>
          rw [register_run_pos_noraise d mgr true hav hd h0 (by simp [hr]),
            register_run_pos_noraise d mgr false hav hd h0 (by simp [hr])]
          exact ⟨rfl, by rw [registerLoop_mgr, registerLoop_mgr],
            by rw [registerLoop_attempts, registerLoop_attempts], rfl⟩
      · have h0' : successCount mgr (globTtf d) = 0 := Nat.eq_zero_of_not_pos h0
        rw [register_run_zero d mgr true hav hd h0',
          register_run_zero d mgr false hav hd h0']
        by_cases hfs : (globTtf d).isEmpty <;>
          simp [hfs, registerLoop_mgr, registerLoop_attempts]
    · have hd' : d.dirExists = false := by
        cases hde : d.dirExists
        · rfl
        · exact absurd hde hd
      rw [register_noDir d mgr true hav hd', register_noDir d mgr false hav hd']
      exact ⟨rfl, rfl, rfl, rfl⟩
  · have hav' : mgr.available = false := by
      cases hae : mgr.available
      · rfl
      · exact absurd hae hav
    rw [register_unavailable d mgr true hav', register_unavailable d mgr false hav']
    exact ⟨rfl, rfl, rfl, rfl⟩

/-- Claim C10: when matplotlib is unavailable, the availability check is
still safe to call: `is_source_sans_available` returns `false` as a total
function (no propagated error), while `register_source_sans_fonts` raises
ImportError for every directory state in that same situation. -/
theorem unavailable_check_safe (mgr : FontManager) (h : mgr.available = false) :
    is_source_sans_available mgr = false
    ∧ ∀ (d : FontDir) (verbose : Bool),
        (register_source_sans_fonts d mgr verbose).result = .error .importError := by
  refine ⟨by simp [is_source_sans_available, h], fun d verbose => ?_⟩
  rw [register_unavailable d mgr verbose h]

/-- Witness for C10 at a concrete unavailable manager. -/
theorem unavailable_check_safe_witness :
    is_source_sans_available ⟨false, fun _ => none, .absent, []⟩ = false
    ∧ (register_source_sans_fonts bundledFontDir ⟨false, fun _ => none, .absent, []⟩
        true).result = .error .importError :=
  ⟨(unavailable_check_safe ⟨false, fun _ => none, .absent, []⟩ rfl).1,
   (unavailable_check_safe ⟨false, fun _ => none, .absent, []⟩ rfl).2 bundledFontDir true⟩

end RSSpythemes
